import Mathlib

/-!
# Verification of the `xcp` copy utility's front-end dispatch and control loop

This file gives a shallow embedding of `src/main.rs` of the `xcp` repository:
the argument splitting, the eager validation checks, the selection between the
single-file special case and the general multi-source branch, and the
status-channel control loop that aggregates progress and aborts on the first
error.  Filesystem predicates (`is_dir`, `is_file`, `exists`, `is_same_file`),
shell-glob expansion (`expand_sources`) and the drivers are external
collaborators of this code and are modelled abstractly: the embedding carries
them as parameters and stops at the point where `main` hands work to a driver
(`copy_single` / `copy_all`), returning the action that would be invoked.
-/

/-- Paths are modelled as plain strings (Rust `PathBuf`). -/
abbrev FsPath := String

/-- Modelled from the spec: the error taxonomy of the `errors` module, which is
not under `src/`.  The variants and their payloads are exactly those used by
`src/main.rs` (`InvalidArguments`, `InvalidSource`, `InvalidDestination`,
`DestinationExists` carrying the destination path) together with the `Io` and
`Channel` classes named by §7 of the spec. -/
inductive XcpError where
  | InvalidArguments (msg : String)
  | InvalidSource (msg : String)
  | InvalidDestination (msg : String)
  | DestinationExists (msg : String) (dest : FsPath)
  | Io (msg : String)
  | Channel (msg : String)
deriving DecidableEq, Repr

/-- The abstract filesystem state `main` queries: `dest.is_dir()`,
`dest.is_file()`, `source.exists()` and `libfs::is_same_file`.  The
`is_same_file` collaborator returns a `Result` in Rust; its error path is not
exercised by any theorem here, so it is modelled as a total boolean test. -/
structure FS where
  is_dir : FsPath → Bool
  is_file : FsPath → Bool
  pathExists : FsPath → Bool
  same_file : FsPath → FsPath → Bool

/-- The options `main` reads (`opts.paths`, `opts.no_clobber`,
`opts.recursive`).  The remaining flags recognized by the `options` module
(verbosity, driver kind, worker count, block size) do not influence the
dispatch logic embedded here. -/
structure Opts where
  paths : List FsPath
  recursive : Bool
  no_clobber : Bool

/-- The point where `main` hands over to the loaded driver: either
`driver.copy_single(source, dest)` or `driver.copy_all(sources, dest)`. -/
inductive MainAction where
  | copySingle (source dest : FsPath)
  | copyAll (sources : List FsPath) (dest : FsPath)
deriving DecidableEq, Repr

/-- Observable set-up effects performed by `main` between the validation of the
source list and the branch dispatch: `progress::create_bar`, the creation of
the status channel (`cbc::unbounded` plus `StatSender::new`), and
`load_driver`. -/
inductive Effect where
  | CreateBar
  | CreateChannel
  | LoadDriver
deriving DecidableEq, Repr

/-- The per-source sanity-check loop of the general branch of `main`
(`src/main.rs` lines 113–136): for each source in order, reject a non-existent
source, a directory source without `--recursive`, a source equal to the
destination, and an existing non-directory destination.  Returns the first
error raised, or `none` when every source passes. -/
def sanityLoop (fs : FS) (recursive : Bool) (dest : FsPath) : List FsPath → Option XcpError
  | [] => none
  | source :: rest =>
    if !(fs.pathExists source) then
      some (.InvalidSource "Source does not exist.")
    else if fs.is_dir source && !recursive then
      some (.InvalidSource "Source is directory and --recursive not specified.")
    else if source == dest then
      some (.InvalidSource "Cannot copy a directory into itself")
    else if fs.pathExists dest && !(fs.is_dir dest) then
      some (.InvalidDestination "Source is directory but target exists and is not a directory")
    else
      sanityLoop fs recursive dest rest

/-- The general branch of `main`: run the sanity loop, then call
`driver.copy_all(sources, dest)` (`src/main.rs` lines 111–139). -/
def copyMulti (fs : FS) (recursive : Bool) (sources : List FsPath) (dest : FsPath) :
    Except XcpError MainAction :=
  match sanityLoop fs recursive dest sources with
  | some e => .error e
  | none => .ok (.copyAll sources dest)

/-- The single-file special case of `main` (`src/main.rs` lines 86–109):
with exactly one source and an existing regular-file destination, reject under
`--no-clobber`, then reject a source that is the same filesystem object as the
destination, else call `driver.copy_single(source, dest)`. -/
def copySingleCheck (fs : FS) (no_clobber : Bool) (source dest : FsPath) :
    Except XcpError MainAction :=
  if no_clobber then
    .error (.DestinationExists "Destination file exists and --no-clobber is set." dest)
  else if fs.same_file source dest then
    .error (.DestinationExists "Source and destination is the same file." dest)
  else
    .ok (.copySingle source dest)

/-- The branch dispatch of `main`: `sources.len() == 1 && dest.is_file()`
selects the single-file special case, anything else the general branch
(`src/main.rs` lines 86 and 111). -/
def mainBranch (fs : FS) (no_clobber recursive : Bool) (sources : List FsPath) (dest : FsPath) :
    Except XcpError MainAction :=
  match sources with
  | [source] =>
    if fs.is_file dest then copySingleCheck fs no_clobber source dest
    else copyMulti fs recursive sources dest
  | _ => copyMulti fs recursive sources dest

/-- The body of `main` after argument parsing and logging set-up
(`src/main.rs` lines 59–139), parameterized by the filesystem and by the
external `options::expand_sources` collaborator.  Returns the list of set-up
effects performed together with either the first validation error or the
driver action `main` goes on to invoke. -/
def mainGo (fs : FS) (expand : List FsPath → List FsPath) (opts : Opts) :
    List Effect × Except XcpError MainAction :=
  match opts.paths.getLast? with
  | none => ([], .error (.InvalidArguments "Insufficient arguments"))
  | some dest =>
    let source_patterns := opts.paths.dropLast
    if source_patterns.length > 1 && !(fs.is_dir dest) then
      ([], .error (.InvalidDestination "Multiple sources and destination is not a directory."))
    else
      let sources := expand source_patterns
      if sources.isEmpty then
        ([], .error (.InvalidSource "No source files found."))
      else
        ([.CreateBar, .CreateChannel, .LoadDriver],
          mainBranch fs opts.no_clobber opts.recursive sources dest)

/-- The messages carried by the status channel (`operations::StatusUpdate` as
consumed in `src/main.rs` lines 143–153).  The error payload is a generic
error in Rust; it is modelled by `XcpError`. -/
inductive StatusUpdate where
  | Copied (v : Nat)
  | Size (v : Nat)
  | Error (e : XcpError)
deriving DecidableEq, Repr

/-- Whether a status message is an error notification. -/
def StatusUpdate.isErr : StatusUpdate → Bool
  | .Error _ => true
  | _ => false

/-- The state of the external progress reporter: accumulated copied bytes
(`pb.inc`), accumulated total size (`pb.inc_size`), and whether `pb.end` has
run. -/
structure ProgressBar where
  bytes : Nat
  total : Nat
  finished : Bool
deriving DecidableEq, Repr

/-- `pb.inc(v)`: add `v` to the copied-byte counter. -/
def ProgressBar.inc (pb : ProgressBar) (v : Nat) : ProgressBar :=
  { pb with bytes := pb.bytes + v }

/-- `pb.inc_size(v)`: add `v` to the total-size counter. -/
def ProgressBar.inc_size (pb : ProgressBar) (v : Nat) : ProgressBar :=
  { pb with total := pb.total + v }

/-- `pb.end()`: mark the bar finished. -/
def ProgressBar.finish (pb : ProgressBar) : ProgressBar :=
  { pb with finished := true }

/-- The control loop of `main` (`src/main.rs` lines 143–158): drain the status
channel in order, forwarding `Copied` to `pb.inc` and `Size` to `pb.inc_size`;
on the first `Error` return it immediately as the invocation's result; when the
channel is exhausted, finish the bar and succeed. -/
def controlLoop (pb : ProgressBar) : List StatusUpdate → Except XcpError ProgressBar
  | [] => .ok pb.finish
  | .Copied v :: rest => controlLoop (pb.inc v) rest
  | .Size v :: rest => controlLoop (pb.inc_size v) rest
  | .Error e :: _ => .error e

/-- Total bytes announced by the `Copied` messages of a stream. -/
def sumCopied : List StatusUpdate → Nat
  | [] => 0
  | .Copied v :: rest => v + sumCopied rest
  | _ :: rest => sumCopied rest

/-- Total bytes announced by the `Size` messages of a stream. -/
def sumSize : List StatusUpdate → Nat
  | [] => 0
  | .Size v :: rest => v + sumSize rest
  | _ :: rest => sumSize rest

/-- A concrete filesystem used to evaluate the theorems on explicit inputs:
`"s"` is a directory, `"f"` and `"d"` are regular files, `"dev"` exists but is
neither a regular file nor a directory (a device node), everything else is
absent; two paths are the same filesystem object exactly when they are the
same existing path. -/
def fsA : FS where
  is_dir := fun p => p == "s"
  is_file := fun p => p == "f" || p == "d"
  pathExists := fun p => p == "s" || p == "f" || p == "d" || p == "dev"
  same_file := fun a b => (a == b) && (a == "s" || a == "f" || a == "d" || a == "dev")

/-- Whether a dispatch outcome is an `InvalidSource` failure. -/
def isInvalidSrcErr : Except XcpError MainAction → Bool
  | .error (.InvalidSource _) => true
  | _ => false

/-- Whether a dispatch outcome is an `InvalidDestination` failure. -/
def isInvalidDestErr : Except XcpError MainAction → Bool
  | .error (.InvalidDestination _) => true
  | _ => false

/-- Whether a dispatch outcome is a `DestinationExists` failure. -/
def isDestExistsErr : Except XcpError MainAction → Bool
  | .error (.DestinationExists _ _) => true
  | _ => false

lemma sumCopied_cons_copied (v : Nat) (l : List StatusUpdate) :
    sumCopied (.Copied v :: l) = v + sumCopied l := rfl

lemma sumCopied_cons_size (v : Nat) (l : List StatusUpdate) :
    sumCopied (.Size v :: l) = sumCopied l := rfl

lemma sumSize_cons_copied (v : Nat) (l : List StatusUpdate) :
    sumSize (.Copied v :: l) = sumSize l := rfl

lemma sumSize_cons_size (v : Nat) (l : List StatusUpdate) :
    sumSize (.Size v :: l) = v + sumSize l := rfl

lemma controlLoop_append_no_err (pb : ProgressBar) (pre rest : List StatusUpdate)
    (h : ∀ m ∈ pre, m.isErr = false) :
    controlLoop pb (pre ++ rest) =
      controlLoop { pb with bytes := pb.bytes + sumCopied pre, total := pb.total + sumSize pre } rest := by
  induction pre generalizing pb with
  | nil => simp [sumCopied, sumSize]
  | cons m pre ih =>
    match m with
    | .Copied v =>
      have h' : ∀ x ∈ pre, x.isErr = false := fun x hx => h x (List.mem_cons_of_mem _ hx)
      show controlLoop (pb.inc v) (pre ++ rest) = _
      rw [ih _ h']
      congr 1
      simp only [ProgressBar.inc, sumCopied_cons_copied, sumSize_cons_copied,
        ProgressBar.mk.injEq]
      exact ⟨by omega, trivial, trivial⟩
    | .Size v =>
      have h' : ∀ x ∈ pre, x.isErr = false := fun x hx => h x (List.mem_cons_of_mem _ hx)
      show controlLoop (pb.inc_size v) (pre ++ rest) = _
      rw [ih _ h']
      congr 1
      simp only [ProgressBar.inc_size, sumCopied_cons_size, sumSize_cons_size,
        ProgressBar.mk.injEq]
      exact ⟨trivial, by omega, trivial⟩
    | .Error e =>
      exact absurd (h _ (List.mem_cons_self _ _)) (by simp [StatusUpdate.isErr])

/-- C1: the control loop terminates the instant it observes the first `Error`
message of the stream, returning the carried error as the invocation's
terminal result; the messages after that `Error` are never processed (the
result does not depend on `post` at all). -/
theorem controlLoop_aborts_on_first_error (pb : ProgressBar) (pre post : List StatusUpdate)
    (e : XcpError) (h : ∀ m ∈ pre, m.isErr = false) :
    controlLoop pb (pre ++ .Error e :: post) = .error e := by
  rw [controlLoop_append_no_err pb pre _ h]
  rfl

/-- Witness for C1 on a concrete stream: two progress messages, an error, and
a trailing message that is never reached. -/
theorem controlLoop_aborts_on_first_error_witness :
    controlLoop ⟨0, 0, false⟩
        [.Size 10, .Copied 4, .Error (.Io "read failed"), .Copied 6] =
      .error (.Io "read failed") :=
  controlLoop_aborts_on_first_error ⟨0, 0, false⟩ [.Size 10, .Copied 4] [.Copied 6]
    (.Io "read failed") (by decide)

/-- C8: on a stream with no `Error` message the control loop consumes every
message, adding each `Copied(v)` to the reporter's byte counter and each
`Size(v)` to its total-size counter, finishes the progress bar, and the
invocation succeeds. -/
theorem controlLoop_consumes_all_without_error (pb : ProgressBar) (msgs : List StatusUpdate)
    (h : ∀ m ∈ msgs, m.isErr = false) :
    controlLoop pb msgs =
      .ok { bytes := pb.bytes + sumCopied msgs, total := pb.total + sumSize msgs, finished := true } := by
  have := controlLoop_append_no_err pb msgs [] h
  simp only [List.append_nil] at this
  rw [this]
  rfl

/-- Witness for C8 on a concrete error-free stream. -/
theorem controlLoop_consumes_all_without_error_witness :
    controlLoop ⟨0, 0, false⟩ [.Size 10, .Copied 4, .Copied 6] =
      .ok { bytes := 10, total := 10, finished := true } :=
  controlLoop_consumes_all_without_error ⟨0, 0, false⟩ [.Size 10, .Copied 4, .Copied 6]
    (by decide)

lemma getLast?_append_single (l : List FsPath) (d : FsPath) :
    (l ++ [d]).getLast? = some d := by
  simp

lemma dropLast_append_single (l : List FsPath) (d : FsPath) :
    (l ++ [d]).dropLast = l := by
  simp

/-- C6: with more than one source pattern and a destination that is not a
directory, `main` fails with `InvalidDestination` before source-pattern
expansion (the result is the same for every expansion function) and before
any set-up effect or copy. -/
theorem multi_source_nondir_dest_fails_before_expansion (fs : FS)
    (expand : List FsPath → List FsPath) (opts : Opts) (patterns : List FsPath) (d : FsPath)
    (hp : opts.paths = patterns ++ [d]) (hlen : patterns.length > 1)
    (hd : fs.is_dir d = false) :
    mainGo fs expand opts =
      ([], .error (.InvalidDestination "Multiple sources and destination is not a directory.")) := by
  unfold mainGo
  rw [hp, getLast?_append_single, dropLast_append_single]
  simp [hd, hlen]

/-- Witness for C6: two file patterns targeting a non-directory. -/
theorem multi_source_nondir_dest_fails_before_expansion_witness :
    mainGo fsA (fun l => l) { paths := ["f", "d", "x"], recursive := false, no_clobber := false } =
      ([], .error (.InvalidDestination "Multiple sources and destination is not a directory.")) :=
  multi_source_nondir_dest_fails_before_expansion fsA (fun l => l) _ ["f", "d"] "x"
    rfl (by decide) (by decide)

/-- C10: when expansion of the source patterns is reached (no earlier check
fired) and yields an empty source list — for instance when only a destination
path was supplied — `main` fails with `InvalidSource` ("No source files
found."), not `InvalidArguments`, before the progress bar, the status channel
or a driver is created and before any copy action is produced. -/
theorem empty_sources_fails_InvalidSource_before_effects (fs : FS)
    (expand : List FsPath → List FsPath) (opts : Opts) (patterns : List FsPath) (d : FsPath)
    (hp : opts.paths = patterns ++ [d])
    (hguard : patterns.length > 1 → fs.is_dir d = true)
    (hexp : expand patterns = []) :
    mainGo fs expand opts = ([], .error (.InvalidSource "No source files found.")) := by
  unfold mainGo
  rw [hp, getLast?_append_single, dropLast_append_single]
  by_cases hlen : patterns.length > 1
  · simp [hguard hlen, hexp]
  · simp [hlen, hexp]

/-- Witness for C10: an invocation supplying only the destination path. -/
theorem empty_sources_fails_InvalidSource_before_effects_witness :
    mainGo fsA (fun l => l) { paths := ["d"], recursive := false, no_clobber := false } =
      ([], .error (.InvalidSource "No source files found.")) :=
  empty_sources_fails_InvalidSource_before_effects fsA (fun l => l) _ [] "d"
    rfl (by decide) rfl

/-- C9: in the single-source case with an existing regular-file destination,
the no-clobber check runs before the same-file check: when `--no-clobber` is
set and source and destination are the same filesystem object, the reported
error is the no-clobber `DestinationExists` message, not the same-file one. -/
theorem no_clobber_checked_before_same_file (fs : FS)
    (expand : List FsPath → List FsPath) (opts : Opts) (patterns : List FsPath) (s d : FsPath)
    (hp : opts.paths = patterns ++ [d])
    (hguard : patterns.length > 1 → fs.is_dir d = true)
    (hexp : expand patterns = [s])
    (hfile : fs.is_file d = true)
    (hnc : opts.no_clobber = true)
    (_hsame : fs.same_file s d = true) :
    (mainGo fs expand opts).2 =
      .error (.DestinationExists "Destination file exists and --no-clobber is set." d) := by
  unfold mainGo
  rw [hp, getLast?_append_single, dropLast_append_single]
  by_cases hlen : patterns.length > 1
  · simp [hguard hlen, hexp, mainBranch, hfile, copySingleCheck, hnc]
  · simp [hlen, hexp, mainBranch, hfile, copySingleCheck, hnc]

/-- Witness for C9: `--no-clobber` self-copy of the regular file `"f"`. -/
theorem no_clobber_checked_before_same_file_witness :
    (mainGo fsA (fun l => l) { paths := ["f", "f"], recursive := false, no_clobber := true }).2 =
      .error (.DestinationExists "Destination file exists and --no-clobber is set." "f") :=
  no_clobber_checked_before_same_file fsA (fun l => l) _ ["f"] "f" "f"
    rfl (by decide) rfl (by decide) rfl (by decide)

/-- Counterexample to C2 as stated: copying the regular file `"f"` onto
itself (one source, destination the same existing file) fails with
`DestinationExists` ("Source and destination is the same file."), not with
`InvalidSource` as the claim requires. -/
theorem same_file_error_is_DestinationExists :
    (mainGo fsA (fun l => l)
        { paths := ["f", "f"], recursive := false, no_clobber := false }).2 =
      .error (.DestinationExists "Source and destination is the same file." "f") ∧
    isInvalidSrcErr (mainGo fsA (fun l => l)
        { paths := ["f", "f"], recursive := false, no_clobber := false }).2 = false := by
  exact ⟨rfl, rfl⟩

/-- C2 (amended): in the single-source case with an existing regular-file
destination, a source that resolves to the same filesystem object as the
destination makes the invocation fail with `DestinationExists` (the no-clobber
message when `--no-clobber` is set, the same-file message otherwise) before
any mutation of the destination: the result is an error, so no driver action
is produced.  (In the general branch the code compares paths for equality
instead and reports `InvalidSource`; a same-object source under a different
path is not detected there.) -/
theorem same_file_single_source_fails_DestinationExists (fs : FS)
    (expand : List FsPath → List FsPath) (opts : Opts) (patterns : List FsPath) (s d : FsPath)
    (hp : opts.paths = patterns ++ [d])
    (hguard : patterns.length > 1 → fs.is_dir d = true)
    (hexp : expand patterns = [s])
    (hfile : fs.is_file d = true)
    (hsame : fs.same_file s d = true) :
    (mainGo fs expand opts).2 =
      .error (.DestinationExists
        (if opts.no_clobber then "Destination file exists and --no-clobber is set."
          else "Source and destination is the same file.") d) := by
  unfold mainGo
  rw [hp, getLast?_append_single, dropLast_append_single]
  by_cases hlen : patterns.length > 1
  · cases hnc : opts.no_clobber <;>
      simp [hguard hlen, hexp, mainBranch, hfile, copySingleCheck, hnc, hsame]
  · cases hnc : opts.no_clobber <;>
      simp [hlen, hexp, mainBranch, hfile, copySingleCheck, hnc, hsame]

/-- Witness for the amended C2: self-copy of `"f"` without `--no-clobber`. -/
theorem same_file_single_source_fails_DestinationExists_witness :
    (mainGo fsA (fun l => l)
        { paths := ["f", "f"], recursive := false, no_clobber := false }).2 =
      .error (.DestinationExists "Source and destination is the same file." "f") :=
  same_file_single_source_fails_DestinationExists fsA (fun l => l) _ ["f"] "f" "f"
    rfl (by decide) rfl (by decide) (by decide)

/-- Counterexample to C3 as stated: with `--no-clobber` set, two sources and a
destination that is an existing regular file, the invocation fails with
`InvalidDestination` (the multiple-sources check runs first), not with
`DestinationExists` as the claim requires. -/
theorem no_clobber_multi_source_gives_InvalidDestination :
    (mainGo fsA (fun l => l)
        { paths := ["f", "s", "d"], recursive := true, no_clobber := true }).2 =
      .error (.InvalidDestination "Multiple sources and destination is not a directory.") ∧
    isDestExistsErr (mainGo fsA (fun l => l)
        { paths := ["f", "s", "d"], recursive := true, no_clobber := true }).2 = false := by
  exact ⟨rfl, rfl⟩

/-- C3 (amended): with `--no-clobber` set, exactly one expanded source and a
destination that is an existing regular file, the invocation fails with
`DestinationExists` ("Destination file exists and --no-clobber is set."); the
result is an error, so no driver action is produced and the destination's
content is untouched.  (With several sources such an invocation fails earlier
with `InvalidDestination` instead.) -/
theorem no_clobber_single_source_fails_DestinationExists (fs : FS)
    (expand : List FsPath → List FsPath) (opts : Opts) (patterns : List FsPath) (s d : FsPath)
    (hp : opts.paths = patterns ++ [d])
    (hguard : patterns.length > 1 → fs.is_dir d = true)
    (hexp : expand patterns = [s])
    (hfile : fs.is_file d = true)
    (hnc : opts.no_clobber = true) :
    (mainGo fs expand opts).2 =
      .error (.DestinationExists "Destination file exists and --no-clobber is set." d) := by
  unfold mainGo
  rw [hp, getLast?_append_single, dropLast_append_single]
  by_cases hlen : patterns.length > 1
  · simp [hguard hlen, hexp, mainBranch, hfile, copySingleCheck, hnc]
  · simp [hlen, hexp, mainBranch, hfile, copySingleCheck, hnc]

/-- Witness for the amended C3: `--no-clobber` copy of `"f"` onto the
existing file `"d"`. -/
theorem no_clobber_single_source_fails_DestinationExists_witness :
    (mainGo fsA (fun l => l)
        { paths := ["f", "d"], recursive := false, no_clobber := true }).2 =
      .error (.DestinationExists "Destination file exists and --no-clobber is set." "d") :=
  no_clobber_single_source_fails_DestinationExists fsA (fun l => l) _ ["f"] "f" "d"
    rfl (by decide) rfl (by decide) rfl

lemma sanityLoop_cons (fs : FS) (recursive : Bool) (dest s : FsPath) (rest : List FsPath) :
    sanityLoop fs recursive dest (s :: rest) =
      if !(fs.pathExists s) then
        some (.InvalidSource "Source does not exist.")
      else if fs.is_dir s && !recursive then
        some (.InvalidSource "Source is directory and --recursive not specified.")
      else if s == dest then
        some (.InvalidSource "Cannot copy a directory into itself")
      else if fs.pathExists dest && !(fs.is_dir dest) then
        some (.InvalidDestination "Source is directory but target exists and is not a directory")
      else
        sanityLoop fs recursive dest rest := rfl

lemma sanityLoop_safe_dest (fs : FS) (recursive : Bool) (dest : FsPath)
    (hd : fs.pathExists dest = false ∨ fs.is_dir dest = true) :
    ∀ sources, sanityLoop fs recursive dest sources = none ∨
      ∃ m, sanityLoop fs recursive dest sources = some (.InvalidSource m) := by
  intro sources
  induction sources with
  | nil => exact Or.inl rfl
  | cons s rest ih =>
    rw [sanityLoop_cons]
    cases h1 : fs.pathExists s with
    | false => exact Or.inr ⟨"Source does not exist.", by simp [h1]⟩
    | true =>
      cases h2 : fs.is_dir s && !recursive with
      | true =>
        exact Or.inr ⟨"Source is directory and --recursive not specified.", by simp [h1, h2]⟩
      | false =>
        cases h3 : s == dest with
        | true => exact Or.inr ⟨"Cannot copy a directory into itself", by simp [h1, h2, h3]⟩
        | false =>
          have h4 : (fs.pathExists dest && !(fs.is_dir dest)) = false := by
            rcases hd with hd | hd <;> simp [hd]
          simpa [h1, h2, h3, h4] using ih

lemma sanityLoop_fires_on_bad (fs : FS) (recursive : Bool) (dest : FsPath) :
    ∀ sources,
      (∃ s ∈ sources, fs.pathExists s = false ∨
        (fs.is_dir s = true ∧ recursive = false) ∨ s = dest) →
      sanityLoop fs recursive dest sources ≠ none := by
  intro sources
  induction sources with
  | nil => rintro ⟨s, hs, _⟩; cases hs
  | cons a rest ih =>
    rintro ⟨s, hs, hbad⟩
    rw [sanityLoop_cons]
    cases h1 : fs.pathExists a with
    | false => simp [h1]
    | true =>
      cases h2 : fs.is_dir a && !recursive with
      | true => simp [h1, h2]
      | false =>
        cases h3 : a == dest with
        | true => simp [h1, h2, h3]
        | false =>
          cases h4 : fs.pathExists dest && !(fs.is_dir dest) with
          | true => simp [h1, h2, h3, h4]
          | false =>
            have hmem : s ∈ rest := by
              rcases List.mem_cons.mp hs with rfl | hmem
              · exfalso
                rcases hbad with hb | ⟨hdir, hrec⟩ | hb
                · rw [h1] at hb; cases hb
                · rw [hdir, hrec] at h2; cases h2
                · rw [hb] at h3; simp at h3
              · exact hmem
            simpa [h1, h2, h3, h4] using ih ⟨s, hmem, hbad⟩

lemma sanityLoop_invalidSource (fs : FS) (recursive : Bool) (dest : FsPath)
    (sources : List FsPath)
    (hd : fs.pathExists dest = false ∨ fs.is_dir dest = true)
    (hbad : ∃ s ∈ sources, fs.pathExists s = false ∨
      (fs.is_dir s = true ∧ recursive = false) ∨ s = dest) :
    ∃ m, sanityLoop fs recursive dest sources = some (.InvalidSource m) := by
  rcases sanityLoop_safe_dest fs recursive dest hd sources with h | h
  · exact absurd h (sanityLoop_fires_on_bad fs recursive dest sources ⟨_, hbad.choose_spec.1, hbad.choose_spec.2⟩)
  · exact h

lemma mainGo_general (fs : FS) (expand : List FsPath → List FsPath) (opts : Opts)
    (patterns : List FsPath) (d : FsPath)
    (hp : opts.paths = patterns ++ [d])
    (hguard : patterns.length > 1 → fs.is_dir d = true)
    (hne : expand patterns ≠ [])
    (hnotsingle : ∀ s, expand patterns = [s] → fs.is_file d = false) :
    (mainGo fs expand opts).2 = copyMulti fs opts.recursive (expand patterns) d := by
  unfold mainGo
  rw [hp, getLast?_append_single, dropLast_append_single]
  cases hsrc : expand patterns with
  | nil => exact absurd hsrc hne
  | cons s rest =>
    cases rest with
    | nil =>
      have hfile := hnotsingle s hsrc
      by_cases hlen : patterns.length > 1
      · simp [hguard hlen, hsrc, mainBranch, hfile]
      · simp [hlen, hsrc, mainBranch, hfile]
    | cons t rest =>
      by_cases hlen : patterns.length > 1
      · simp [hguard hlen, hsrc, mainBranch]
      · simp [hlen, hsrc, mainBranch]

/-- Counterexample to C4 as stated: invocations with a directory source and
`--recursive` unset that do not fail with `InvalidSource`.  (i) a single
directory source with an existing regular-file destination under
`--no-clobber` fails with `DestinationExists`; (ii) the same invocation
without `--no-clobber` proceeds to `copy_single` — a copy is attempted;
(iii) with two source patterns and a non-directory destination the invocation
fails with `InvalidDestination`; (iv) a pattern expanding to a file plus a
directory with an existing regular-file destination fails with
`InvalidDestination` from the in-loop destination check. -/
theorem dir_source_claim_counterexample :
    ((mainGo fsA (fun l => l)
        { paths := ["s", "d"], recursive := false, no_clobber := true }).2 =
      .error (.DestinationExists "Destination file exists and --no-clobber is set." "d") ∧
    isInvalidSrcErr (mainGo fsA (fun l => l)
        { paths := ["s", "d"], recursive := false, no_clobber := true }).2 = false) ∧
    ((mainGo fsA (fun l => l)
        { paths := ["s", "d"], recursive := false, no_clobber := false }).2 =
      .ok (.copySingle "s" "d") ∧
    isInvalidSrcErr (mainGo fsA (fun l => l)
        { paths := ["s", "d"], recursive := false, no_clobber := false }).2 = false) ∧
    ((mainGo fsA (fun l => l)
        { paths := ["s", "f", "x"], recursive := false, no_clobber := false }).2 =
      .error (.InvalidDestination "Multiple sources and destination is not a directory.") ∧
    isInvalidSrcErr (mainGo fsA (fun l => l)
        { paths := ["s", "f", "x"], recursive := false, no_clobber := false }).2 = false) ∧
    ((mainGo fsA (fun _ => ["f", "s"])
        { paths := ["p", "d"], recursive := false, no_clobber := false }).2 =
      .error (.InvalidDestination "Source is directory but target exists and is not a directory") ∧
    isInvalidSrcErr (mainGo fsA (fun _ => ["f", "s"])
        { paths := ["p", "d"], recursive := false, no_clobber := false }).2 = false) := by
  exact ⟨⟨rfl, rfl⟩, ⟨rfl, rfl⟩, ⟨rfl, rfl⟩, ⟨rfl, rfl⟩⟩

/-- C4 (amended): an invocation with a directory among its expanded sources
while `--recursive` is unset fails with `InvalidSource` and produces no copy
action, provided the single-source existing-regular-file special case does not
apply, the multiple-patterns guard passes, and the destination is a directory
or nonexistent (otherwise the `DestinationExists`/`copy_single` special case
or an `InvalidDestination` check preempts the directory check, as the
counterexample shows). -/
theorem dir_source_without_recursive_fails_InvalidSource (fs : FS)
    (expand : List FsPath → List FsPath) (opts : Opts) (patterns : List FsPath) (d : FsPath)
    (hp : opts.paths = patterns ++ [d])
    (hguard : patterns.length > 1 → fs.is_dir d = true)
    (hsafe : fs.pathExists d = false ∨ fs.is_dir d = true)
    (hnotsingle : ∀ s, expand patterns = [s] → fs.is_file d = false)
    (hdir : ∃ s ∈ expand patterns, fs.is_dir s = true)
    (hrec : opts.recursive = false) :
    isInvalidSrcErr (mainGo fs expand opts).2 = true := by
  obtain ⟨s, hmem, hsdir⟩ := hdir
  have hne : expand patterns ≠ [] := by
    intro h
    rw [h] at hmem
    cases hmem
  rw [mainGo_general fs expand opts patterns d hp hguard hne hnotsingle]
  obtain ⟨m, hm⟩ := sanityLoop_invalidSource fs opts.recursive d (expand patterns) hsafe
    ⟨s, hmem, Or.inr (Or.inl ⟨hsdir, hrec⟩)⟩
  simp [copyMulti, hm, isInvalidSrcErr]

/-- Witness for the amended C4: the directory `"s"` copied without
`--recursive` to a fresh destination. -/
theorem dir_source_without_recursive_fails_InvalidSource_witness :
    isInvalidSrcErr (mainGo fsA (fun l => l)
        { paths := ["s", "x"], recursive := false, no_clobber := false }).2 = true :=
  dir_source_without_recursive_fails_InvalidSource fsA (fun l => l) _ ["s"] "x"
    rfl (by decide) (Or.inl (by decide)) (by intro s h; decide) ⟨"s", by decide, by decide⟩ rfl

/-- Counterexample to C7 as stated: invocations with a non-existent source
that do not fail with `InvalidSource`.  (i) a single missing source with an
existing regular-file destination under `--no-clobber` fails with
`DestinationExists` (the special case runs before any existence check);
(ii) a pattern expanding to an existing file plus a missing source with an
existing regular-file destination fails with `InvalidDestination`; (iii) two
missing patterns with a non-directory destination fail with
`InvalidDestination` before expansion. -/
theorem missing_source_claim_counterexample :
    ((mainGo fsA (fun l => l)
        { paths := ["m", "d"], recursive := false, no_clobber := true }).2 =
      .error (.DestinationExists "Destination file exists and --no-clobber is set." "d") ∧
    isInvalidSrcErr (mainGo fsA (fun l => l)
        { paths := ["m", "d"], recursive := false, no_clobber := true }).2 = false) ∧
    ((mainGo fsA (fun _ => ["f", "m"])
        { paths := ["p", "d"], recursive := false, no_clobber := false }).2 =
      .error (.InvalidDestination "Source is directory but target exists and is not a directory") ∧
    isInvalidSrcErr (mainGo fsA (fun _ => ["f", "m"])
        { paths := ["p", "d"], recursive := false, no_clobber := false }).2 = false) ∧
    ((mainGo fsA (fun l => l)
        { paths := ["m1", "m2", "x"], recursive := false, no_clobber := false }).2 =
      .error (.InvalidDestination "Multiple sources and destination is not a directory.") ∧
    isInvalidSrcErr (mainGo fsA (fun l => l)
        { paths := ["m1", "m2", "x"], recursive := false, no_clobber := false }).2 = false) := by
  exact ⟨⟨rfl, rfl⟩, ⟨rfl, rfl⟩, ⟨rfl, rfl⟩⟩

/-- C7 (amended): an invocation with a non-existent path among its expanded
sources fails with `InvalidSource` — a non-zero, erroneous result — and
produces no copy action, provided the single-source existing-regular-file
special case does not apply, the multiple-patterns guard passes, and the
destination is a directory or nonexistent (otherwise a `DestinationExists` or
`InvalidDestination` check preempts the existence check, as the counterexample
shows). -/
theorem missing_source_fails_InvalidSource (fs : FS)
    (expand : List FsPath → List FsPath) (opts : Opts) (patterns : List FsPath) (d : FsPath)
    (hp : opts.paths = patterns ++ [d])
    (hguard : patterns.length > 1 → fs.is_dir d = true)
    (hsafe : fs.pathExists d = false ∨ fs.is_dir d = true)
    (hnotsingle : ∀ s, expand patterns = [s] → fs.is_file d = false)
    (hmiss : ∃ s ∈ expand patterns, fs.pathExists s = false) :
    isInvalidSrcErr (mainGo fs expand opts).2 = true := by
  obtain ⟨s, hmem, hsmiss⟩ := hmiss
  have hne : expand patterns ≠ [] := by
    intro h
    rw [h] at hmem
    cases hmem
  rw [mainGo_general fs expand opts patterns d hp hguard hne hnotsingle]
  obtain ⟨m, hm⟩ := sanityLoop_invalidSource fs opts.recursive d (expand patterns) hsafe
    ⟨s, hmem, Or.inl hsmiss⟩
  simp [copyMulti, hm, isInvalidSrcErr]

/-- Witness for the amended C7: the missing path `"m"` copied to a fresh
destination. -/
theorem missing_source_fails_InvalidSource_witness :
    isInvalidSrcErr (mainGo fsA (fun l => l)
        { paths := ["m", "x"], recursive := false, no_clobber := false }).2 = true :=
  missing_source_fails_InvalidSource fsA (fun l => l) _ ["m"] "x"
    rfl (by decide) (Or.inl (by decide)) (by intro s h; decide) ⟨"m", by decide, by decide⟩

/-- Counterexample to C5 as stated: invocations with a directory source and an
existing non-directory destination that do not fail with `InvalidDestination`.
(i) a single directory source with an existing regular-file destination under
`--no-clobber` fails with `DestinationExists`; (ii) the same invocation
without `--no-clobber` proceeds to `copy_single`; (iii) without `--recursive`
the directory-source check fires first with `InvalidSource` (destination
`"dev"` exists and is not a directory); (iv) a missing path checked before the
directory source fails first with `InvalidSource`. -/
theorem dir_source_nondir_dest_counterexample :
    ((mainGo fsA (fun l => l)
        { paths := ["s", "d"], recursive := true, no_clobber := true }).2 =
      .error (.DestinationExists "Destination file exists and --no-clobber is set." "d") ∧
    isInvalidDestErr (mainGo fsA (fun l => l)
        { paths := ["s", "d"], recursive := true, no_clobber := true }).2 = false) ∧
    ((mainGo fsA (fun l => l)
        { paths := ["s", "d"], recursive := true, no_clobber := false }).2 =
      .ok (.copySingle "s" "d") ∧
    isInvalidDestErr (mainGo fsA (fun l => l)
        { paths := ["s", "d"], recursive := true, no_clobber := false }).2 = false) ∧
    ((mainGo fsA (fun l => l)
        { paths := ["s", "dev"], recursive := false, no_clobber := false }).2 =
      .error (.InvalidSource "Source is directory and --recursive not specified.") ∧
    isInvalidDestErr (mainGo fsA (fun l => l)
        { paths := ["s", "dev"], recursive := false, no_clobber := false }).2 = false) ∧
    ((mainGo fsA (fun _ => ["m", "s"])
        { paths := ["p", "dev"], recursive := true, no_clobber := false }).2 =
      .error (.InvalidSource "Source does not exist.") ∧
    isInvalidDestErr (mainGo fsA (fun _ => ["m", "s"])
        { paths := ["p", "dev"], recursive := true, no_clobber := false }).2 = false) := by
  exact ⟨⟨rfl, rfl⟩, ⟨rfl, rfl⟩, ⟨rfl, rfl⟩, ⟨rfl, rfl⟩⟩

/-- C5 (amended): an invocation with a directory among its expanded sources
whose destination exists and is not a directory fails with
`InvalidDestination` before any copy begins, provided the single-source
existing-regular-file special case does not apply and no per-source check
fires on the first source before the destination check is reached (the first
source exists, is a directory only if `--recursive` is set, and differs from
the destination path); otherwise a `DestinationExists`, `copy_single` or
`InvalidSource` outcome preempts it, as the counterexample shows. -/
theorem nondir_existing_dest_fails_InvalidDestination (fs : FS)
    (expand : List FsPath → List FsPath) (opts : Opts) (patterns : List FsPath)
    (s d : FsPath) (rest : List FsPath)
    (hp : opts.paths = patterns ++ [d])
    (hexp : expand patterns = s :: rest)
    (hdexists : fs.pathExists d = true)
    (hdnotdir : fs.is_dir d = false)
    (hnotsingle : rest = [] → fs.is_file d = false)
    (_hdirsrc : ∃ t ∈ s :: rest, fs.is_dir t = true)
    (hs1 : fs.pathExists s = true)
    (hs2 : fs.is_dir s = true → opts.recursive = true)
    (hs3 : s ≠ d) :
    isInvalidDestErr (mainGo fs expand opts).2 = true := by
  unfold mainGo
  rw [hp, getLast?_append_single, dropLast_append_single]
  by_cases hlen : patterns.length > 1
  · simp [hlen, hdnotdir, isInvalidDestErr]
  · have h2 : (fs.is_dir s && !opts.recursive) = false := by
      cases hdir : fs.is_dir s
      · simp
      · simp [hs2 hdir]
    have h3 : (s == d) = false := by
      simp [hs3]
    have h4 : (fs.pathExists d && !(fs.is_dir d)) = true := by
      simp [hdexists, hdnotdir]
    cases rest with
    | nil =>
      have hfile := hnotsingle rfl
      simp [hlen, hexp, mainBranch, hfile, copyMulti, sanityLoop_cons, hs1, h2, h3, h4,
        isInvalidDestErr]
    | cons t rest =>
      simp [hlen, hexp, mainBranch, copyMulti, sanityLoop_cons, hs1, h2, h3, h4,
        isInvalidDestErr]

/-- Witness for the amended C5: the directory `"s"` copied with `--recursive`
onto the existing non-directory, non-regular-file path `"dev"`. -/
theorem nondir_existing_dest_fails_InvalidDestination_witness :
    isInvalidDestErr (mainGo fsA (fun l => l)
        { paths := ["s", "dev"], recursive := true, no_clobber := false }).2 = true :=
  nondir_existing_dest_fails_InvalidDestination fsA (fun l => l) _ ["s"] "s" "dev" []
    rfl rfl (by decide) (by decide) (fun _ => by decide) ⟨"s", by decide, by decide⟩
    (by decide) (fun _ => rfl) (by decide)
